import Mathlib

/-!
Verification of the SOCKS5 client core of `src/relay/tcprelay/client.rs`
(shadowsocks-rust TCP relay client).

The handshake functions `Socks5Client::connect` and
`Socks5Client::udp_associate` are embedded as pure functions from an
environment (the results the network delivers for each I/O step) to a pair
of an event trace (the I/O calls issued, in order) and an outcome
(success, a propagated `io::Error`, or a panic raised by `assert_eq!`).
The `AsyncRead` / `AsyncWrite` delegation impls are embedded as functions
over a stream model whose poll operations are supplied as fields.

The SOCKS5 message types (`HandshakeRequest`, `HandshakeResponse`,
`TcpRequestHeader`, `TcpResponseHeader`, `Reply`, `Address`) are declared
in `src/relay/socks5.rs`, which is outside the visible core; they are
modelled from the spec where so marked.
-/

namespace Socks5

/-- Modelled from the spec: the "no authentication" method code of
`src/relay/socks5.rs` (`SOCKS5_AUTH_METHOD_NONE`), the only method this
client ever offers. -/
def SOCKS5_AUTH_METHOD_NONE : Nat := 0x00

/-- Modelled from the spec: `HandshakeRequest` of `src/relay/socks5.rs` —
an ordered list of supported authentication method codes. -/
structure HandshakeRequest where
  methods : List Nat
  deriving DecidableEq, Repr

/-- `HandshakeRequest::new` constructor. -/
def HandshakeRequest.new (methods : List Nat) : HandshakeRequest :=
  ⟨methods⟩

/-- Modelled from the spec: `HandshakeResponse` of `src/relay/socks5.rs` —
the chosen method code returned by the far end. -/
structure HandshakeResponse where
  chosen_method : Nat
  deriving DecidableEq, Repr

/-- Modelled from the spec: the command field of a connection request
(CONNECT or UDP_ASSOCIATE). -/
inductive Command where
  | TcpConnect
  | UdpAssociate
  deriving DecidableEq, Repr

/-- Modelled from the spec: `Address` of `src/relay/socks5.rs` — tagged
union of IPv4 endpoint, IPv6 endpoint, and domain-name+port. -/
inductive Address where
  | socketV4 (a b c d : Nat) (port : Nat)
  | socketV6 (segs : List Nat) (port : Nat)
  | domainName (name : String) (port : Nat)
  deriving DecidableEq, Repr

/-- Modelled from the spec: `TcpRequestHeader` of `src/relay/socks5.rs` —
a command together with a target address. -/
structure TcpRequestHeader where
  command : Command
  address : Address
  deriving DecidableEq, Repr

/-- `TcpRequestHeader::new` constructor. -/
def TcpRequestHeader.new (command : Command) (address : Address) : TcpRequestHeader :=
  ⟨command, address⟩

/-- Modelled from the spec: `Reply` of `src/relay/socks5.rs` — the
enumerated reply codes of a connection response, with a carrier for
other/reserved codes. -/
inductive Reply where
  | Succeeded
  | GeneralFailure
  | ConnectionNotAllowed
  | NetworkUnreachable
  | HostUnreachable
  | ConnectionRefused
  | TtlExpired
  | CommandNotSupported
  | AddressTypeNotSupported
  | OtherReply (code : Nat)
  deriving DecidableEq, Repr

/-- Modelled from the spec: the `fmt::Display` rendering of `Reply`; the
source builds the rejection error payload from it via `format!`.  Each
enumerated code renders to a distinct description. -/
def replyDisplay : Reply → String
  | .Succeeded => "Succeeded"
  | .GeneralFailure => "General SOCKS server failure"
  | .ConnectionNotAllowed => "Connection not allowed by ruleset"
  | .NetworkUnreachable => "Network unreachable"
  | .HostUnreachable => "Host unreachable"
  | .ConnectionRefused => "Connection refused"
  | .TtlExpired => "TTL expired"
  | .CommandNotSupported => "Command not supported"
  | .AddressTypeNotSupported => "Address type not supported"
  | .OtherReply code => "Other reply: " ++ Nat.repr code

/-- Modelled from the spec: `TcpResponseHeader` of `src/relay/socks5.rs` —
a reply code together with the proxy's bound address. -/
structure TcpResponseHeader where
  reply : Reply
  address : Address
  deriving DecidableEq, Repr

/-- The kind of a `std::io::Error` (the kinds relevant here). -/
inductive ErrorKind where
  | Other
  | ConnectionRefused
  | UnexpectedEof
  | WouldBlock
  | TimedOut
  | NotConnected
  deriving DecidableEq, Repr

/-- A `std::io::Error` value: a kind plus a textual payload, mirroring
`io::Error::new(kind, message)`. No structured protocol data is carried. -/
structure IoError where
  kind : ErrorKind
  message : String
  deriving DecidableEq, Repr

/-- Non-blocking poll result, mirroring `task::Poll`. -/
inductive Poll (α : Type) where
  | ready (v : α)
  | pending
  deriving DecidableEq, Repr

/-- The duplex byte-stream capability: the four poll operations of
`AsyncRead`/`AsyncWrite` (`tokio::net::TcpStream` and the opaque
`ProxyStream` both satisfy it).  `Nat` arguments stand for the opaque
`task::Context` token and the read-buffer capacity; a write takes the
caller's bytes.  Results mirror `Poll<io::Result<..>>`. -/
structure RawStream where
  pollRead : Nat → Nat → Poll (Except IoError Nat)
  pollWrite : Nat → List Nat → Poll (Except IoError Nat)
  pollFlush : Nat → Poll (Except IoError Unit)
  pollShutdown : Nat → Poll (Except IoError Unit)

/-- `Socks5Client`: owns the negotiated stream (`stream: TcpStream`). -/
structure Socks5Client where
  stream : RawStream

/-- `ServerClient`: owns the opaque relay stream (`stream: ProxyStream`). -/
structure ServerClient where
  stream : RawStream

instance {ε α : Type} [DecidableEq ε] [DecidableEq α] : DecidableEq (Except ε α) := fun x y =>
  match x, y with
  | .ok a, .ok b => if h : a = b then .isTrue (by rw [h]) else .isFalse (by simp [h])
  | .error a, .error b => if h : a = b then .isTrue (by rw [h]) else .isFalse (by simp [h])
  | .ok _, .error _ => .isFalse (by simp)
  | .error _, .ok _ => .isFalse (by simp)

/-- One I/O call issued by the handshake code, in program order.  Write
events carry the message value handed to `write_to`; read events carry the
result the network delivered; `closeStream` records the drop (close) of
the partially-built connection on an early exit. -/
inductive Event where
  | tcpConnect
  | writeHandshake (hs : HandshakeRequest)
  | readHandshake (r : Except IoError HandshakeResponse)
  | writeRequest (h : TcpRequestHeader)
  | flush
  | readResponse (r : Except IoError TcpResponseHeader)
  | closeStream
  deriving DecidableEq, Repr

/-- The environment: what the network returns for each I/O step of one
handshake session, in step order.  `connect` never consults the two flush
results (it issues no flush); `udp_associate` consults both. -/
structure Env where
  connectResult : Except IoError RawStream
  writeHsResult : Except IoError Unit
  flush1Result : Except IoError Unit
  readHsResult : Except IoError HandshakeResponse
  writeReqResult : Except IoError Unit
  flush2Result : Except IoError Unit
  readRespResult : Except IoError TcpResponseHeader

/-- Outcome of a handshake run: the Rust `io::Result` plus a third case
for a panic raised by `assert_eq!`. -/
inductive Outcome (α : Type) where
  | ok (v : α)
  | err (e : IoError)
  | panicked (msg : String)

/-- Embedding of `Socks5Client::connect` (src/relay/tcprelay/client.rs,
lines 34-68): TCP connect, write handshake offering only
`SOCKS5_AUTH_METHOD_NONE`, read handshake response, `assert_eq!` on the
chosen method, write `TcpRequestHeader(TcpConnect, addr)`, read response,
reject on non-`Succeeded` reply with `io::Error::new(Other, format!(..))`.
No flush is issued anywhere on this path.  Early `?` returns drop the
stream (`closeStream`). -/
def connectRun (addr : Address) (env : Env) : List Event × Outcome Socks5Client :=
  match env.connectResult with
  | .error e => ([Event.tcpConnect], .err e)
  | .ok s =>
    let hs := HandshakeRequest.new [SOCKS5_AUTH_METHOD_NONE]
    let t1 := [Event.tcpConnect, Event.writeHandshake hs]
    match env.writeHsResult with
    | .error e => (t1 ++ [Event.closeStream], .err e)
    | .ok _ =>
      let t2 := t1 ++ [Event.readHandshake env.readHsResult]
      match env.readHsResult with
      | .error e => (t2 ++ [Event.closeStream], .err e)
      | .ok hsp =>
        if hsp.chosen_method = SOCKS5_AUTH_METHOD_NONE then
          let h := TcpRequestHeader.new Command.TcpConnect addr
          let t3 := t2 ++ [Event.writeRequest h]
          match env.writeReqResult with
          | .error e => (t3 ++ [Event.closeStream], .err e)
          | .ok _ =>
            let t4 := t3 ++ [Event.readResponse env.readRespResult]
            match env.readRespResult with
            | .error e => (t4 ++ [Event.closeStream], .err e)
            | .ok hp =>
              if hp.reply = Reply.Succeeded then
                (t4, .ok ⟨s⟩)
              else
                (t4 ++ [Event.closeStream],
                 .err ⟨ErrorKind.Other, replyDisplay hp.reply⟩)
        else
          (t2 ++ [Event.closeStream],
           .panicked "assertion failed: hsp.chosen_method == SOCKS5_AUTH_METHOD_NONE")

/-- Embedding of `Socks5Client::udp_associate` (src/relay/tcprelay/client.rs,
lines 71-107): same step sequence with command `UdpAssociate`, an explicit
`s.flush()` after each of the two writes, and, on success, the response's
bound address returned alongside the client. -/
def udpAssociateRun (addr : Address) (env : Env) :
    List Event × Outcome (Socks5Client × Address) :=
  match env.connectResult with
  | .error e => ([Event.tcpConnect], .err e)
  | .ok s =>
    let hs := HandshakeRequest.new [SOCKS5_AUTH_METHOD_NONE]
    let t1 := [Event.tcpConnect, Event.writeHandshake hs]
    match env.writeHsResult with
    | .error e => (t1 ++ [Event.closeStream], .err e)
    | .ok _ =>
      let t1f := t1 ++ [Event.flush]
      match env.flush1Result with
      | .error e => (t1f ++ [Event.closeStream], .err e)
      | .ok _ =>
        let t2 := t1f ++ [Event.readHandshake env.readHsResult]
        match env.readHsResult with
        | .error e => (t2 ++ [Event.closeStream], .err e)
        | .ok hsp =>
          if hsp.chosen_method = SOCKS5_AUTH_METHOD_NONE then
            let h := TcpRequestHeader.new Command.UdpAssociate addr
            let t3 := t2 ++ [Event.writeRequest h]
            match env.writeReqResult with
            | .error e => (t3 ++ [Event.closeStream], .err e)
            | .ok _ =>
              let t3f := t3 ++ [Event.flush]
              match env.flush2Result with
              | .error e => (t3f ++ [Event.closeStream], .err e)
              | .ok _ =>
                let t4 := t3f ++ [Event.readResponse env.readRespResult]
                match env.readRespResult with
                | .error e => (t4 ++ [Event.closeStream], .err e)
                | .ok hp =>
                  if hp.reply = Reply.Succeeded then
                    (t4, .ok (⟨s⟩, hp.address))
                  else
                    (t4 ++ [Event.closeStream],
                     .err ⟨ErrorKind.Other, replyDisplay hp.reply⟩)
          else
            (t2 ++ [Event.closeStream],
             .panicked "assertion failed: hsp.chosen_method == SOCKS5_AUTH_METHOD_NONE")

/-- `impl AsyncRead for Socks5Client`: `poll_read` delegates to
`Pin::new(&mut self.stream).poll_read(cx, buf)`. -/
def Socks5Client.pollRead (c : Socks5Client) (cx bufLen : Nat) : Poll (Except IoError Nat) :=
  c.stream.pollRead cx bufLen

/-- `impl AsyncWrite for Socks5Client`: `poll_write` delegates to the
wrapped stream. -/
def Socks5Client.pollWrite (c : Socks5Client) (cx : Nat) (buf : List Nat) : Poll (Except IoError Nat) :=
  c.stream.pollWrite cx buf

/-- `impl AsyncWrite for Socks5Client`: `poll_flush` delegates to the
wrapped stream. -/
def Socks5Client.pollFlush (c : Socks5Client) (cx : Nat) : Poll (Except IoError Unit) :=
  c.stream.pollFlush cx

/-- `impl AsyncWrite for Socks5Client`: `poll_shutdown` delegates to the
wrapped stream. -/
def Socks5Client.pollShutdown (c : Socks5Client) (cx : Nat) : Poll (Except IoError Unit) :=
  c.stream.pollShutdown cx

/-- `impl AsyncRead for ServerClient`: `poll_read` delegates to the
wrapped stream. -/
def ServerClient.pollRead (c : ServerClient) (cx bufLen : Nat) : Poll (Except IoError Nat) :=
  c.stream.pollRead cx bufLen

/-- `impl AsyncWrite for ServerClient`: `poll_write` delegates to the
wrapped stream. -/
def ServerClient.pollWrite (c : ServerClient) (cx : Nat) (buf : List Nat) : Poll (Except IoError Nat) :=
  c.stream.pollWrite cx buf

/-- `impl AsyncWrite for ServerClient`: `poll_flush` delegates to the
wrapped stream. -/
def ServerClient.pollFlush (c : ServerClient) (cx : Nat) : Poll (Except IoError Unit) :=
  c.stream.pollFlush cx

/-- `impl AsyncWrite for ServerClient`: `poll_shutdown` delegates to the
wrapped stream. -/
def ServerClient.pollShutdown (c : ServerClient) (cx : Nat) : Poll (Except IoError Unit) :=
  c.stream.pollShutdown cx

/-- Is the event a write of protocol bytes (handshake or request header)? -/
def Event.isWrite : Event → Bool
  | .writeHandshake _ => true
  | .writeRequest _ => true
  | _ => false

/-- Is the event a read of a protocol response? -/
def Event.isRead : Event → Bool
  | .readHandshake _ => true
  | .readResponse _ => true
  | _ => false

/-- Is the event an explicit flush? -/
def Event.isFlush : Event → Bool
  | .flush => true
  | _ => false

/-- Is the event the method-negotiation (handshake) write? -/
def Event.isWriteHandshake : Event → Bool
  | .writeHandshake _ => true
  | _ => false

/-- Is the event the command-negotiation (request header) write? -/
def Event.isWriteRequest : Event → Bool
  | .writeRequest _ => true
  | _ => false

/-- Is the event the handshake-response read? -/
def Event.isReadHandshake : Event → Bool
  | .readHandshake _ => true
  | _ => false

/-- Is the event the connection-response read? -/
def Event.isReadResponse : Event → Bool
  | .readResponse _ => true
  | _ => false

/-- Is the event the transport-level TCP connect? -/
def Event.isTcpConnect : Event → Bool
  | .tcpConnect => true
  | _ => false

/-- A flush occurs in the trace before the next protocol read (vacuously
true when no read follows). -/
def flushPrecedesRead : List Event → Bool
  | [] => true
  | e :: rest => e.isFlush || (!e.isRead && flushPrecedesRead rest)

/-- Every write step in the trace is followed by an explicit flush before
the paired read is issued. -/
def everyWriteFlushedBeforeRead : List Event → Bool
  | [] => true
  | e :: rest => (!e.isWrite || flushPrecedesRead rest) && everyWriteFlushedBeforeRead rest

/-- Sequencing monitor: the strict request/response order of one SOCKS5
session.  States: 0 start, 1 connected, 2 handshake written, 3 handshake
response read, 4 request written, 5 response read.  Each negotiation step
is accepted exactly once and only in order; flush and close are accepted
whenever a stream exists; everything else (a second connect, a repeated
round, a read before its write) is rejected. -/
def seqStep : Nat → Event → Option Nat
  | 0, .tcpConnect => some 1
  | 1, .writeHandshake _ => some 2
  | 2, .readHandshake _ => some 3
  | 3, .writeRequest _ => some 4
  | 4, .readResponse _ => some 5
  | s + 1, .flush => some (s + 1)
  | s + 1, .closeStream => some (s + 1)
  | _, _ => none

/-- The sequencing monitor accepts the trace from the given state. -/
def seqAccepts : Nat → List Event → Bool
  | _, [] => true
  | s, e :: tr =>
    match seqStep s e with
    | some s2 => seqAccepts s2 tr
    | none => false

/-- The suffix of the trace strictly after the first connection-response
read (empty when none occurs). -/
def afterFirstReadResponse : List Event → List Event
  | [] => []
  | e :: rest => if e.isReadResponse then rest else afterFirstReadResponse rest

/-- A trivial concrete stream used to instantiate environments. -/
def nullStream : RawStream :=
  ⟨fun _ _ => .ready (.ok 0), fun _ _ => .ready (.ok 0),
   fun _ => .ready (.ok ()), fun _ => .ready (.ok ())⟩

/-- Concrete target address for witnesses: `example.com:443`. -/
def addr0 : Address := .domainName "example.com" 443

/-- Concrete bound address for witnesses: `0.0.0.0:0`. -/
def bound0 : Address := .socketV4 0 0 0 0 0

/-- Environment in which every step succeeds: method `0x00` is chosen and
the reply is `Succeeded` with bound address `0.0.0.0:0`. -/
def envOk : Env :=
  ⟨.ok nullStream, .ok (), .ok (), .ok ⟨0⟩, .ok (), .ok (), .ok ⟨.Succeeded, bound0⟩⟩

/-- Environment whose handshake response chooses method `0x02`
(username/password), which this client never offered. -/
def envBadMethod : Env :=
  ⟨.ok nullStream, .ok (), .ok (), .ok ⟨2⟩, .ok (), .ok (), .ok ⟨.Succeeded, bound0⟩⟩

/-- Environment in which the proxy rejects the request with
`ConnectionRefused`. -/
def envRefused : Env :=
  ⟨.ok nullStream, .ok (), .ok (), .ok ⟨0⟩, .ok (), .ok (), .ok ⟨.ConnectionRefused, bound0⟩⟩

/-- Case analysis on a run of `connectRun`: every reachable (trace,
outcome) pair is one of the eight branch shapes of the source function. -/
lemma connectRun_elim (addr : Address) (env : Env)
    (P : List Event × Outcome Socks5Client → Prop)
    (hconn : ∀ e, env.connectResult = Except.error e →
      P ([Event.tcpConnect], Outcome.err e))
    (hwhs : ∀ st e, env.connectResult = Except.ok st →
      env.writeHsResult = Except.error e →
      P ([Event.tcpConnect,
          Event.writeHandshake (HandshakeRequest.new [SOCKS5_AUTH_METHOD_NONE]),
          Event.closeStream], Outcome.err e))
    (hrhs : ∀ st e, env.connectResult = Except.ok st →
      env.writeHsResult = Except.ok () → env.readHsResult = Except.error e →
      P ([Event.tcpConnect,
          Event.writeHandshake (HandshakeRequest.new [SOCKS5_AUTH_METHOD_NONE]),
          Event.readHandshake (Except.error e),
          Event.closeStream], Outcome.err e))
    (hpanic : ∀ st hsp, env.connectResult = Except.ok st →
      env.writeHsResult = Except.ok () → env.readHsResult = Except.ok hsp →
      ¬ hsp.chosen_method = SOCKS5_AUTH_METHOD_NONE →
      P ([Event.tcpConnect,
          Event.writeHandshake (HandshakeRequest.new [SOCKS5_AUTH_METHOD_NONE]),
          Event.readHandshake (Except.ok hsp),
          Event.closeStream],
         Outcome.panicked "assertion failed: hsp.chosen_method == SOCKS5_AUTH_METHOD_NONE"))
    (hwreq : ∀ st hsp e, env.connectResult = Except.ok st →
      env.writeHsResult = Except.ok () → env.readHsResult = Except.ok hsp →
      hsp.chosen_method = SOCKS5_AUTH_METHOD_NONE →
      env.writeReqResult = Except.error e →
      P ([Event.tcpConnect,
          Event.writeHandshake (HandshakeRequest.new [SOCKS5_AUTH_METHOD_NONE]),
          Event.readHandshake (Except.ok hsp),
          Event.writeRequest (TcpRequestHeader.new Command.TcpConnect addr),
          Event.closeStream], Outcome.err e))
    (hrresp : ∀ st hsp e, env.connectResult = Except.ok st →
      env.writeHsResult = Except.ok () → env.readHsResult = Except.ok hsp →
      hsp.chosen_method = SOCKS5_AUTH_METHOD_NONE →
      env.writeReqResult = Except.ok () → env.readRespResult = Except.error e →
      P ([Event.tcpConnect,
          Event.writeHandshake (HandshakeRequest.new [SOCKS5_AUTH_METHOD_NONE]),
          Event.readHandshake (Except.ok hsp),
          Event.writeRequest (TcpRequestHeader.new Command.TcpConnect addr),
          Event.readResponse (Except.error e),
          Event.closeStream], Outcome.err e))
    (hrej : ∀ st hsp hp, env.connectResult = Except.ok st →
      env.writeHsResult = Except.ok () → env.readHsResult = Except.ok hsp →
      hsp.chosen_method = SOCKS5_AUTH_METHOD_NONE →
      env.writeReqResult = Except.ok () → env.readRespResult = Except.ok hp →
      ¬ hp.reply = Reply.Succeeded →
      P ([Event.tcpConnect,
          Event.writeHandshake (HandshakeRequest.new [SOCKS5_AUTH_METHOD_NONE]),
          Event.readHandshake (Except.ok hsp),
          Event.writeRequest (TcpRequestHeader.new Command.TcpConnect addr),
          Event.readResponse (Except.ok hp),
          Event.closeStream],
         Outcome.err ⟨ErrorKind.Other, replyDisplay hp.reply⟩))
    (hok : ∀ st hsp hp, env.connectResult = Except.ok st →
      env.writeHsResult = Except.ok () → env.readHsResult = Except.ok hsp →
      hsp.chosen_method = SOCKS5_AUTH_METHOD_NONE →
      env.writeReqResult = Except.ok () → env.readRespResult = Except.ok hp →
      hp.reply = Reply.Succeeded →
      P ([Event.tcpConnect,
          Event.writeHandshake (HandshakeRequest.new [SOCKS5_AUTH_METHOD_NONE]),
          Event.readHandshake (Except.ok hsp),
          Event.writeRequest (TcpRequestHeader.new Command.TcpConnect addr),
          Event.readResponse (Except.ok hp)],
         Outcome.ok ⟨st⟩)) :
    P (connectRun addr env) := by
  unfold connectRun
  cases hc : env.connectResult with
  | error e => exact hconn e hc
  | ok st =>
    cases hw : env.writeHsResult with
    | error e => exact hwhs st e hc hw
    | ok u =>
      cases u
      cases hr : env.readHsResult with
      | error e => exact hrhs st e hc hw hr
      | ok hsp =>
        dsimp only
        by_cases hm : hsp.chosen_method = SOCKS5_AUTH_METHOD_NONE
        · rw [if_pos hm]
          cases hq : env.writeReqResult with
          | error e => exact hwreq st hsp e hc hw hr hm hq
          | ok u2 =>
            cases u2
            cases hresp : env.readRespResult with
            | error e => exact hrresp st hsp e hc hw hr hm hq hresp
            | ok hp =>
              dsimp only
              by_cases hrep : hp.reply = Reply.Succeeded
              · rw [if_pos hrep]
                exact hok st hsp hp hc hw hr hm hq hresp hrep
              · rw [if_neg hrep]
                exact hrej st hsp hp hc hw hr hm hq hresp hrep
        · rw [if_neg hm]
          exact hpanic st hsp hc hw hr hm

/-- Case analysis on a run of `udpAssociateRun`: every reachable (trace,
outcome) pair is one of the ten branch shapes of the source function. -/
lemma udpAssociateRun_elim (addr : Address) (env : Env)
    (P : List Event × Outcome (Socks5Client × Address) → Prop)
    (hconn : ∀ e, env.connectResult = Except.error e →
      P ([Event.tcpConnect], Outcome.err e))
    (hwhs : ∀ st e, env.connectResult = Except.ok st →
      env.writeHsResult = Except.error e →
      P ([Event.tcpConnect,
          Event.writeHandshake (HandshakeRequest.new [SOCKS5_AUTH_METHOD_NONE]),
          Event.closeStream], Outcome.err e))
    (hfl1 : ∀ st e, env.connectResult = Except.ok st →
      env.writeHsResult = Except.ok () → env.flush1Result = Except.error e →
      P ([Event.tcpConnect,
          Event.writeHandshake (HandshakeRequest.new [SOCKS5_AUTH_METHOD_NONE]),
          Event.flush, Event.closeStream], Outcome.err e))
    (hrhs : ∀ st e, env.connectResult = Except.ok st →
      env.writeHsResult = Except.ok () → env.flush1Result = Except.ok () →
      env.readHsResult = Except.error e →
      P ([Event.tcpConnect,
          Event.writeHandshake (HandshakeRequest.new [SOCKS5_AUTH_METHOD_NONE]),
          Event.flush,
          Event.readHandshake (Except.error e),
          Event.closeStream], Outcome.err e))
    (hpanic : ∀ st hsp, env.connectResult = Except.ok st →
      env.writeHsResult = Except.ok () → env.flush1Result = Except.ok () →
      env.readHsResult = Except.ok hsp →
      ¬ hsp.chosen_method = SOCKS5_AUTH_METHOD_NONE →
      P ([Event.tcpConnect,
          Event.writeHandshake (HandshakeRequest.new [SOCKS5_AUTH_METHOD_NONE]),
          Event.flush,
          Event.readHandshake (Except.ok hsp),
          Event.closeStream],
         Outcome.panicked "assertion failed: hsp.chosen_method == SOCKS5_AUTH_METHOD_NONE"))
    (hwreq : ∀ st hsp e, env.connectResult = Except.ok st →
      env.writeHsResult = Except.ok () → env.flush1Result = Except.ok () →
      env.readHsResult = Except.ok hsp →
      hsp.chosen_method = SOCKS5_AUTH_METHOD_NONE →
      env.writeReqResult = Except.error e →
      P ([Event.tcpConnect,
          Event.writeHandshake (HandshakeRequest.new [SOCKS5_AUTH_METHOD_NONE]),
          Event.flush,
          Event.readHandshake (Except.ok hsp),
          Event.writeRequest (TcpRequestHeader.new Command.UdpAssociate addr),
          Event.closeStream], Outcome.err e))
    (hfl2 : ∀ st hsp e, env.connectResult = Except.ok st →
      env.writeHsResult = Except.ok () → env.flush1Result = Except.ok () →
      env.readHsResult = Except.ok hsp →
      hsp.chosen_method = SOCKS5_AUTH_METHOD_NONE →
      env.writeReqResult = Except.ok () → env.flush2Result = Except.error e →
      P ([Event.tcpConnect,
          Event.writeHandshake (HandshakeRequest.new [SOCKS5_AUTH_METHOD_NONE]),
          Event.flush,
          Event.readHandshake (Except.ok hsp),
          Event.writeRequest (TcpRequestHeader.new Command.UdpAssociate addr),
          Event.flush, Event.closeStream], Outcome.err e))
    (hrresp : ∀ st hsp e, env.connectResult = Except.ok st →
      env.writeHsResult = Except.ok () → env.flush1Result = Except.ok () →
      env.readHsResult = Except.ok hsp →
      hsp.chosen_method = SOCKS5_AUTH_METHOD_NONE →
      env.writeReqResult = Except.ok () → env.flush2Result = Except.ok () →
      env.readRespResult = Except.error e →
      P ([Event.tcpConnect,
          Event.writeHandshake (HandshakeRequest.new [SOCKS5_AUTH_METHOD_NONE]),
          Event.flush,
          Event.readHandshake (Except.ok hsp),
          Event.writeRequest (TcpRequestHeader.new Command.UdpAssociate addr),
          Event.flush,
          Event.readResponse (Except.error e),
          Event.closeStream], Outcome.err e))
    (hrej : ∀ st hsp hp, env.connectResult = Except.ok st →
      env.writeHsResult = Except.ok () → env.flush1Result = Except.ok () →
      env.readHsResult = Except.ok hsp →
      hsp.chosen_method = SOCKS5_AUTH_METHOD_NONE →
      env.writeReqResult = Except.ok () → env.flush2Result = Except.ok () →
      env.readRespResult = Except.ok hp →
      ¬ hp.reply = Reply.Succeeded →
      P ([Event.tcpConnect,
          Event.writeHandshake (HandshakeRequest.new [SOCKS5_AUTH_METHOD_NONE]),
          Event.flush,
          Event.readHandshake (Except.ok hsp),
          Event.writeRequest (TcpRequestHeader.new Command.UdpAssociate addr),
          Event.flush,
          Event.readResponse (Except.ok hp),
          Event.closeStream],
         Outcome.err ⟨ErrorKind.Other, replyDisplay hp.reply⟩))
    (hok : ∀ st hsp hp, env.connectResult = Except.ok st →
      env.writeHsResult = Except.ok () → env.flush1Result = Except.ok () →
      env.readHsResult = Except.ok hsp →
      hsp.chosen_method = SOCKS5_AUTH_METHOD_NONE →
      env.writeReqResult = Except.ok () → env.flush2Result = Except.ok () →
      env.readRespResult = Except.ok hp →
      hp.reply = Reply.Succeeded →
      P ([Event.tcpConnect,
          Event.writeHandshake (HandshakeRequest.new [SOCKS5_AUTH_METHOD_NONE]),
          Event.flush,
          Event.readHandshake (Except.ok hsp),
          Event.writeRequest (TcpRequestHeader.new Command.UdpAssociate addr),
          Event.flush,
          Event.readResponse (Except.ok hp)],
         Outcome.ok (⟨st⟩, hp.address))) :
    P (udpAssociateRun addr env) := by
  unfold udpAssociateRun
  cases hc : env.connectResult with
  | error e => exact hconn e hc
  | ok st =>
    cases hw : env.writeHsResult with
    | error e => exact hwhs st e hc hw
    | ok u =>
      cases u
      cases hf1 : env.flush1Result with
      | error e => exact hfl1 st e hc hw hf1
      | ok u1 =>
        cases u1
        cases hr : env.readHsResult with
        | error e => exact hrhs st e hc hw hf1 hr
        | ok hsp =>
          dsimp only
          by_cases hm : hsp.chosen_method = SOCKS5_AUTH_METHOD_NONE
          · rw [if_pos hm]
            cases hq : env.writeReqResult with
            | error e => exact hwreq st hsp e hc hw hf1 hr hm hq
            | ok u2 =>
              cases u2
              cases hf2 : env.flush2Result with
              | error e => exact hfl2 st hsp e hc hw hf1 hr hm hq hf2
              | ok u3 =>
                cases u3
                cases hresp : env.readRespResult with
                | error e => exact hrresp st hsp e hc hw hf1 hr hm hq hf2 hresp
                | ok hp =>
                  dsimp only
                  by_cases hrep : hp.reply = Reply.Succeeded
                  · rw [if_pos hrep]
                    exact hok st hsp hp hc hw hf1 hr hm hq hf2 hresp hrep
                  · rw [if_neg hrep]
                    exact hrej st hsp hp hc hw hf1 hr hm hq hf2 hresp hrep
          · rw [if_neg hm]
            exact hpanic st hsp hc hw hf1 hr hm

/-- C6: in every handshake session (CONNECT or UDP_ASSOCIATE) the steps
are strictly sequential — the sequencing monitor accepts every reachable
trace, so no response is read before its request was issued, no second
request precedes the first response, and there is at most one round of
method negotiation and at most one round of command negotiation; the
protocol never loops or falls back. -/
theorem connect_udp_strict_sequencing :
    ∀ (addr : Address) (env : Env),
      seqAccepts 0 (connectRun addr env).1 = true ∧
      seqAccepts 0 (udpAssociateRun addr env).1 = true ∧
      List.countP Event.isWriteHandshake (connectRun addr env).1 ≤ 1 ∧
      List.countP Event.isWriteRequest (connectRun addr env).1 ≤ 1 ∧
      List.countP Event.isReadHandshake (connectRun addr env).1 ≤ 1 ∧
      List.countP Event.isReadResponse (connectRun addr env).1 ≤ 1 ∧
      List.countP Event.isWriteHandshake (udpAssociateRun addr env).1 ≤ 1 ∧
      List.countP Event.isWriteRequest (udpAssociateRun addr env).1 ≤ 1 ∧
      List.countP Event.isReadHandshake (udpAssociateRun addr env).1 ≤ 1 ∧
      List.countP Event.isReadResponse (udpAssociateRun addr env).1 ≤ 1 := by
  intro addr env
  refine ⟨?_, ?_, ?_, ?_, ?_, ?_, ?_, ?_, ?_, ?_⟩
  · apply connectRun_elim addr env (fun p => seqAccepts 0 p.1 = true) <;> intros <;> rfl
  · apply udpAssociateRun_elim addr env (fun p => seqAccepts 0 p.1 = true) <;> intros <;> rfl
  · apply connectRun_elim addr env
      (fun p => List.countP Event.isWriteHandshake p.1 ≤ 1) <;> intros <;>
      simp [Event.isWriteHandshake]
  · apply connectRun_elim addr env
      (fun p => List.countP Event.isWriteRequest p.1 ≤ 1) <;> intros <;>
      simp [Event.isWriteRequest]
  · apply connectRun_elim addr env
      (fun p => List.countP Event.isReadHandshake p.1 ≤ 1) <;> intros <;>
      simp [Event.isReadHandshake]
  · apply connectRun_elim addr env
      (fun p => List.countP Event.isReadResponse p.1 ≤ 1) <;> intros <;>
      simp [Event.isReadResponse]
  · apply udpAssociateRun_elim addr env
      (fun p => List.countP Event.isWriteHandshake p.1 ≤ 1) <;> intros <;>
      simp [Event.isWriteHandshake]
  · apply udpAssociateRun_elim addr env
      (fun p => List.countP Event.isWriteRequest p.1 ≤ 1) <;> intros <;>
      simp [Event.isWriteRequest]
  · apply udpAssociateRun_elim addr env
      (fun p => List.countP Event.isReadHandshake p.1 ≤ 1) <;> intros <;>
      simp [Event.isReadHandshake]
  · apply udpAssociateRun_elim addr env
      (fun p => List.countP Event.isReadResponse p.1 ≤ 1) <;> intros <;>
      simp [Event.isReadResponse]

/-- C3 counterexample: in `Socks5Client::connect`, with every network step
succeeding (method `0x00`, reply `Succeeded`), the handshake write is NOT
followed by a flush before the paired read — the claimed
flush-after-every-write discipline fails on the CONNECT path. -/
theorem connect_write_unflushed_counterexample :
    everyWriteFlushedBeforeRead (connectRun addr0 envOk).1 = false := by
  rfl

/-- C3 (amended): only `udp_associate` flushes after each write before the
paired read; `connect` issues no flush at all between its writes and the
corresponding reads. -/
theorem udp_flushes_but_connect_never_flushes :
    ∀ (addr : Address) (env : Env),
      everyWriteFlushedBeforeRead (udpAssociateRun addr env).1 = true ∧
      List.countP Event.isFlush (connectRun addr env).1 = 0 := by
  intro addr env
  constructor
  · apply udpAssociateRun_elim addr env
      (fun p => everyWriteFlushedBeforeRead p.1 = true) <;> intros <;> rfl
  · apply connectRun_elim addr env
      (fun p => List.countP Event.isFlush p.1 = 0) <;> intros <;> rfl

/-- Maps a UDP_ASSOCIATE request-header write to the corresponding CONNECT
one, leaving every other event unchanged (used to compare the two session
types' step sequences). -/
def toConnectCmd : Event → Event
  | .writeRequest h => .writeRequest (TcpRequestHeader.new Command.TcpConnect h.address)
  | e => e

/-- C4: whenever its two flushes succeed, `udp_associate` performs exactly
the `connect` step sequence — erasing the flush events and renaming the
command to `TcpConnect` yields the `connect` trace verbatim — its request
write carries command `UdpAssociate`, and each of its two writes is
followed by an explicit flush before the paired read. -/
theorem udp_same_sequence_with_flushes (addr : Address) (env : Env)
    (hf1 : env.flush1Result = Except.ok ())
    (hf2 : env.flush2Result = Except.ok ()) :
    ((udpAssociateRun addr env).1.filter (fun e => !e.isFlush)).map toConnectCmd
        = (connectRun addr env).1 ∧
    (∀ h, Event.writeRequest h ∈ (udpAssociateRun addr env).1 →
      h.command = Command.UdpAssociate) ∧
    everyWriteFlushedBeforeRead (udpAssociateRun addr env).1 = true := by
  refine ⟨?_, ?_, ?_⟩
  · apply udpAssociateRun_elim addr env
      (fun p => (p.1.filter fun e => !e.isFlush).map toConnectCmd = (connectRun addr env).1) <;>
      intro st
    · intro hc
      simp [connectRun, hc, toConnectCmd, Event.isFlush]
    · intro e hc hw
      simp [connectRun, hc, hw, toConnectCmd, Event.isFlush]
    · intro e hc hw hfe
      rw [hf1] at hfe
      exact absurd hfe (by simp)
    · intro e hc hw _ hr
      simp [connectRun, hc, hw, hr, toConnectCmd, Event.isFlush]
    · intro hsp hc hw _ hr hm
      simp [connectRun, hc, hw, hr, hm, toConnectCmd, Event.isFlush]
    · intro hsp e hc hw _ hr hm hq
      simp [connectRun, hc, hw, hr, hm, hq, toConnectCmd, Event.isFlush,
        TcpRequestHeader.new]
    · intro hsp e hc hw _ hr hm hq hfe
      rw [hf2] at hfe
      exact absurd hfe (by simp)
    · intro hsp e hc hw _ hr hm hq _ hresp
      simp [connectRun, hc, hw, hr, hm, hq, hresp, toConnectCmd, Event.isFlush,
        TcpRequestHeader.new]
    · intro hsp hp hc hw _ hr hm hq _ hresp hrep
      simp [connectRun, hc, hw, hr, hm, hq, hresp, hrep, toConnectCmd, Event.isFlush,
        TcpRequestHeader.new]
    · intro hsp hp hc hw _ hr hm hq _ hresp hrep
      simp [connectRun, hc, hw, hr, hm, hq, hresp, hrep, toConnectCmd, Event.isFlush,
        TcpRequestHeader.new]
  · apply udpAssociateRun_elim addr env
      (fun p => ∀ h, Event.writeRequest h ∈ p.1 → h.command = Command.UdpAssociate) <;>
      intros <;> simp_all [TcpRequestHeader.new]
  · apply udpAssociateRun_elim addr env
      (fun p => everyWriteFlushedBeforeRead p.1 = true) <;> intros <;> rfl

/-- C4 witness: the theorem instantiated at `example.com:443` over the
all-success environment. -/
theorem udp_same_sequence_with_flushes_witness :
    envOk.flush1Result = Except.ok () ∧ envOk.flush2Result = Except.ok () ∧
    (((udpAssociateRun addr0 envOk).1.filter (fun e => !e.isFlush)).map toConnectCmd
        = (connectRun addr0 envOk).1 ∧
     (∀ h, Event.writeRequest h ∈ (udpAssociateRun addr0 envOk).1 →
       h.command = Command.UdpAssociate) ∧
     everyWriteFlushedBeforeRead (udpAssociateRun addr0 envOk).1 = true) :=
  ⟨rfl, rfl, udp_same_sequence_with_flushes addr0 envOk rfl rfl⟩

/-- C9: in every session (CONNECT or UDP_ASSOCIATE) the handshake request
written in step 1 offers exactly the single method code
`SOCKS5_AUTH_METHOD_NONE`, it is written at most once (exactly once as
soon as the TCP connect succeeds), and no other handshake request value
ever appears in a trace. -/
theorem handshake_offers_only_none_written_once :
    ∀ (addr : Address) (env : Env),
      (∀ hs, Event.writeHandshake hs ∈ (connectRun addr env).1 →
        hs.methods = [SOCKS5_AUTH_METHOD_NONE]) ∧
      (∀ hs, Event.writeHandshake hs ∈ (udpAssociateRun addr env).1 →
        hs.methods = [SOCKS5_AUTH_METHOD_NONE]) ∧
      List.countP Event.isWriteHandshake (connectRun addr env).1 ≤ 1 ∧
      List.countP Event.isWriteHandshake (udpAssociateRun addr env).1 ≤ 1 ∧
      (∀ st, env.connectResult = Except.ok st →
        List.countP Event.isWriteHandshake (connectRun addr env).1 = 1 ∧
        List.countP Event.isWriteHandshake (udpAssociateRun addr env).1 = 1) := by
  intro addr env
  refine ⟨?_, ?_, ?_, ?_, ?_⟩
  · apply connectRun_elim addr env
      (fun p => ∀ hs, Event.writeHandshake hs ∈ p.1 →
        hs.methods = [SOCKS5_AUTH_METHOD_NONE]) <;>
      intros <;> simp_all [HandshakeRequest.new]
  · apply udpAssociateRun_elim addr env
      (fun p => ∀ hs, Event.writeHandshake hs ∈ p.1 →
        hs.methods = [SOCKS5_AUTH_METHOD_NONE]) <;>
      intros <;> simp_all [HandshakeRequest.new]
  · apply connectRun_elim addr env
      (fun p => List.countP Event.isWriteHandshake p.1 ≤ 1) <;> intros <;>
      simp [Event.isWriteHandshake]
  · apply udpAssociateRun_elim addr env
      (fun p => List.countP Event.isWriteHandshake p.1 ≤ 1) <;> intros <;>
      simp [Event.isWriteHandshake]
  · intro st hst
    constructor
    · apply connectRun_elim addr env
        (fun p => List.countP Event.isWriteHandshake p.1 = 1) <;>
        intros <;> simp_all [Event.isWriteHandshake]
    · apply udpAssociateRun_elim addr env
        (fun p => List.countP Event.isWriteHandshake p.1 = 1) <;>
        intros <;> simp_all [Event.isWriteHandshake]

/-- C9 witness: at `example.com:443` over the all-success environment the
handshake request is written exactly once. -/
theorem handshake_offers_only_none_written_once_witness :
    envOk.connectResult = Except.ok nullStream ∧
    List.countP Event.isWriteHandshake (connectRun addr0 envOk).1 = 1 ∧
    List.countP Event.isWriteHandshake (udpAssociateRun addr0 envOk).1 = 1 :=
  ⟨rfl, (handshake_offers_only_none_written_once addr0 envOk).2.2.2.2 nullStream rfl⟩

/-- C1 (failing input for the claim): when the handshake response chooses
method `0x02` — any method other than `SOCKS5_AUTH_METHOD_NONE` — both
`connect` and `udp_associate` PANIC via `assert_eq!` instead of returning
a typed `UnsupportedAuthMethod` error; no connection-request bytes are
written after the mismatch. -/
theorem method_mismatch_panics_instead_of_error :
    (connectRun addr0 envBadMethod).2 =
      Outcome.panicked "assertion failed: hsp.chosen_method == SOCKS5_AUTH_METHOD_NONE" ∧
    (udpAssociateRun addr0 envBadMethod).2 =
      Outcome.panicked "assertion failed: hsp.chosen_method == SOCKS5_AUTH_METHOD_NONE" ∧
    List.countP Event.isWriteRequest (connectRun addr0 envBadMethod).1 = 0 ∧
    List.countP Event.isWriteRequest (udpAssociateRun addr0 envBadMethod).1 = 0 :=
  ⟨rfl, rfl, rfl, rfl⟩

/-- Environment of one fully-delivered session: the TCP connect yields
`st`, every write and flush succeeds, the handshake response is `hsp` and
the connection response is `hp`. -/
def oneShotEnv (st : RawStream) (hsp : HandshakeResponse) (hp : TcpResponseHeader) : Env :=
  ⟨Except.ok st, Except.ok (), Except.ok (), Except.ok hsp,
   Except.ok (), Except.ok (), Except.ok hp⟩

/-- The named (non-reserved) reply codes. -/
def namedReplies : List Reply :=
  [Reply.Succeeded, Reply.GeneralFailure, Reply.ConnectionNotAllowed,
   Reply.NetworkUnreachable, Reply.HostUnreachable, Reply.ConnectionRefused,
   Reply.TtlExpired, Reply.CommandNotSupported, Reply.AddressTypeNotSupported]

/-- C2: when the delivered connection response carries a non-`Succeeded`
reply, both operations fail with an error whose payload is the display of
that exact reply code (the displays of the named codes are pairwise
distinct, so the payload identifies the code), the trailing close is the
only event after the response read — no further reads or writes — and no
client value is produced; with the `Succeeded` reply, and only then, both
operations return success. -/
theorem reply_code_decides_outcome (addr : Address) (st : RawStream)
    (hsp : HandshakeResponse) (hp : TcpResponseHeader)
    (hm : hsp.chosen_method = SOCKS5_AUTH_METHOD_NONE) :
    (¬ hp.reply = Reply.Succeeded →
      connectRun addr (oneShotEnv st hsp hp)
        = ([Event.tcpConnect,
            Event.writeHandshake (HandshakeRequest.new [SOCKS5_AUTH_METHOD_NONE]),
            Event.readHandshake (Except.ok hsp),
            Event.writeRequest (TcpRequestHeader.new Command.TcpConnect addr),
            Event.readResponse (Except.ok hp),
            Event.closeStream],
           Outcome.err ⟨ErrorKind.Other, replyDisplay hp.reply⟩) ∧
      udpAssociateRun addr (oneShotEnv st hsp hp)
        = ([Event.tcpConnect,
            Event.writeHandshake (HandshakeRequest.new [SOCKS5_AUTH_METHOD_NONE]),
            Event.flush,
            Event.readHandshake (Except.ok hsp),
            Event.writeRequest (TcpRequestHeader.new Command.UdpAssociate addr),
            Event.flush,
            Event.readResponse (Except.ok hp),
            Event.closeStream],
           Outcome.err ⟨ErrorKind.Other, replyDisplay hp.reply⟩) ∧
      List.countP (fun e => e.isRead || e.isWrite)
        (afterFirstReadResponse (connectRun addr (oneShotEnv st hsp hp)).1) = 0 ∧
      List.countP (fun e => e.isRead || e.isWrite)
        (afterFirstReadResponse (udpAssociateRun addr (oneShotEnv st hsp hp)).1) = 0) ∧
    (hp.reply = Reply.Succeeded →
      (connectRun addr (oneShotEnv st hsp hp)).2 = Outcome.ok ⟨st⟩ ∧
      (udpAssociateRun addr (oneShotEnv st hsp hp)).2
        = Outcome.ok (⟨st⟩, hp.address)) ∧
    List.Nodup (namedReplies.map replyDisplay) := by
  refine ⟨?_, ?_, ?_⟩
  · intro hrep
    refine ⟨?_, ?_, ?_, ?_⟩ <;>
      simp [connectRun, udpAssociateRun, oneShotEnv, hm, hrep,
        afterFirstReadResponse, Event.isReadResponse, Event.isRead, Event.isWrite]
  · intro hrep
    constructor <;> simp [connectRun, udpAssociateRun, oneShotEnv, hm, hrep]
  · decide

/-- C2 witness: the proxy answers `ConnectionRefused`; `connect` fails
with the error payload rendering exactly that code. -/
theorem reply_code_decides_outcome_witness :
    (⟨0⟩ : HandshakeResponse).chosen_method = SOCKS5_AUTH_METHOD_NONE ∧
    ¬ Reply.ConnectionRefused = Reply.Succeeded ∧
    (connectRun addr0 (oneShotEnv nullStream ⟨0⟩ ⟨Reply.ConnectionRefused, bound0⟩)).2
      = Outcome.err ⟨ErrorKind.Other, replyDisplay Reply.ConnectionRefused⟩ :=
  ⟨rfl, by decide, by
    rw [((reply_code_decides_outcome addr0 nullStream ⟨0⟩
      ⟨Reply.ConnectionRefused, bound0⟩ rfl).1 (by decide)).1]⟩

/-- C5: every successful run of `udp_associate` returns, unaltered, the
bound address carried by the connection response the peer delivered. -/
theorem udp_success_returns_response_address :
    ∀ (addr : Address) (env : Env) (c : Socks5Client) (ba : Address),
      (udpAssociateRun addr env).2 = Outcome.ok (c, ba) →
      ∃ hp, env.readRespResult = Except.ok hp ∧ hp.reply = Reply.Succeeded ∧
        ba = hp.address := by
  intro addr env c ba
  apply udpAssociateRun_elim addr env
    (fun p => p.2 = Outcome.ok (c, ba) →
      ∃ hp, env.readRespResult = Except.ok hp ∧ hp.reply = Reply.Succeeded ∧
        ba = hp.address)
  case hok =>
    intro st hsp hp hc hw hf1 hr hm hq hf2 hresp hrep h
    simp only [Outcome.ok.injEq, Prod.mk.injEq] at h
    exact ⟨hp, hresp, hrep, h.2.symm⟩
  all_goals intros; simp_all

/-- C5 witness: over the all-success environment (bound address
`0.0.0.0:0`), the returned bound address is the one from the response. -/
theorem udp_success_returns_response_address_witness :
    (udpAssociateRun addr0 envOk).2 = Outcome.ok (⟨nullStream⟩, bound0) ∧
    ∃ hp, envOk.readRespResult = Except.ok hp ∧ hp.reply = Reply.Succeeded ∧
      bound0 = hp.address :=
  ⟨rfl, udp_success_returns_response_address addr0 envOk ⟨nullStream⟩ bound0 rfl⟩

/-- C7: whenever `connect` or `udp_associate` fails, the partially built
connection is dropped (the trace ends with the close of the stream,
except when the transport-level connect itself failed and no stream ever
existed), the returned error is exactly the underlying step's error or
the rejection error built from the received reply — propagated, never
swallowed — no client value is returned, and the transport connect is
attempted exactly once (no internal retry). -/
theorem failure_discards_connection_and_propagates :
    ∀ (addr : Address) (env : Env) (e : IoError),
      ((connectRun addr env).2 = Outcome.err e →
        ((connectRun addr env).1.getLast? = some Event.closeStream ∨
          env.connectResult = Except.error e) ∧
        (env.connectResult = Except.error e ∨ env.writeHsResult = Except.error e ∨
         env.readHsResult = Except.error e ∨ env.writeReqResult = Except.error e ∨
         env.readRespResult = Except.error e ∨
         ∃ hp, env.readRespResult = Except.ok hp ∧ ¬ hp.reply = Reply.Succeeded ∧
           e = ⟨ErrorKind.Other, replyDisplay hp.reply⟩) ∧
        (∀ c, ¬ (connectRun addr env).2 = Outcome.ok c)) ∧
      ((udpAssociateRun addr env).2 = Outcome.err e →
        ((udpAssociateRun addr env).1.getLast? = some Event.closeStream ∨
          env.connectResult = Except.error e) ∧
        (env.connectResult = Except.error e ∨ env.writeHsResult = Except.error e ∨
         env.flush1Result = Except.error e ∨ env.readHsResult = Except.error e ∨
         env.writeReqResult = Except.error e ∨ env.flush2Result = Except.error e ∨
         env.readRespResult = Except.error e ∨
         ∃ hp, env.readRespResult = Except.ok hp ∧ ¬ hp.reply = Reply.Succeeded ∧
           e = ⟨ErrorKind.Other, replyDisplay hp.reply⟩) ∧
        (∀ cb, ¬ (udpAssociateRun addr env).2 = Outcome.ok cb)) ∧
      List.countP Event.isTcpConnect (connectRun addr env).1 = 1 ∧
      List.countP Event.isTcpConnect (udpAssociateRun addr env).1 = 1 := by
  intro addr env e
  refine ⟨?_, ?_, ?_, ?_⟩
  · apply connectRun_elim addr env
      (fun p => p.2 = Outcome.err e →
        (p.1.getLast? = some Event.closeStream ∨ env.connectResult = Except.error e) ∧
        (env.connectResult = Except.error e ∨ env.writeHsResult = Except.error e ∨
         env.readHsResult = Except.error e ∨ env.writeReqResult = Except.error e ∨
         env.readRespResult = Except.error e ∨
         ∃ hp, env.readRespResult = Except.ok hp ∧ ¬ hp.reply = Reply.Succeeded ∧
           e = ⟨ErrorKind.Other, replyDisplay hp.reply⟩) ∧
        (∀ c, ¬ p.2 = Outcome.ok c)) <;> intros <;> simp_all
  · apply udpAssociateRun_elim addr env
      (fun p => p.2 = Outcome.err e →
        (p.1.getLast? = some Event.closeStream ∨ env.connectResult = Except.error e) ∧
        (env.connectResult = Except.error e ∨ env.writeHsResult = Except.error e ∨
         env.flush1Result = Except.error e ∨ env.readHsResult = Except.error e ∨
         env.writeReqResult = Except.error e ∨ env.flush2Result = Except.error e ∨
         env.readRespResult = Except.error e ∨
         ∃ hp, env.readRespResult = Except.ok hp ∧ ¬ hp.reply = Reply.Succeeded ∧
           e = ⟨ErrorKind.Other, replyDisplay hp.reply⟩) ∧
        (∀ cb, ¬ p.2 = Outcome.ok cb)) <;> intros <;> simp_all
  · apply connectRun_elim addr env
      (fun p => List.countP Event.isTcpConnect p.1 = 1) <;> intros <;>
      simp [Event.isTcpConnect]
  · apply udpAssociateRun_elim addr env
      (fun p => List.countP Event.isTcpConnect p.1 = 1) <;> intros <;>
      simp [Event.isTcpConnect]

/-- C7 witness: the proxy rejects with `ConnectionRefused`; the failed
`connect` run ends by closing the stream. -/
theorem failure_discards_connection_and_propagates_witness :
    (connectRun addr0 envRefused).1.getLast? = some Event.closeStream ∨
    envRefused.connectResult
      = Except.error ⟨ErrorKind.Other, replyDisplay Reply.ConnectionRefused⟩ :=
  ((failure_discards_connection_and_propagates addr0 envRefused
    ⟨ErrorKind.Other, replyDisplay Reply.ConnectionRefused⟩).1 rfl).1

/-- C8: every `read`/`write`/`flush`/`shutdown` poll on a `Socks5Client`
or a `ServerClient` is exactly the same poll on the wrapped underlying
stream with the same arguments, so over identical underlying streams the
two client types are observationally identical byte pipes. -/
theorem poll_ops_delegate_unchanged :
    ∀ (st : RawStream) (cx n : Nat) (buf : List Nat),
      (Socks5Client.mk st).pollRead cx n = st.pollRead cx n ∧
      (Socks5Client.mk st).pollWrite cx buf = st.pollWrite cx buf ∧
      (Socks5Client.mk st).pollFlush cx = st.pollFlush cx ∧
      (Socks5Client.mk st).pollShutdown cx = st.pollShutdown cx ∧
      (ServerClient.mk st).pollRead cx n = st.pollRead cx n ∧
      (ServerClient.mk st).pollWrite cx buf = st.pollWrite cx buf ∧
      (ServerClient.mk st).pollFlush cx = st.pollFlush cx ∧
      (ServerClient.mk st).pollShutdown cx = st.pollShutdown cx ∧
      (Socks5Client.mk st).pollRead cx n = (ServerClient.mk st).pollRead cx n ∧
      (Socks5Client.mk st).pollWrite cx buf = (ServerClient.mk st).pollWrite cx buf ∧
      (Socks5Client.mk st).pollFlush cx = (ServerClient.mk st).pollFlush cx ∧
      (Socks5Client.mk st).pollShutdown cx = (ServerClient.mk st).pollShutdown cx :=
  fun _ _ _ _ =>
    ⟨rfl, rfl, rfl, rfl, rfl, rfl, rfl, rfl, rfl, rfl, rfl, rfl⟩

/-- C10: a non-`Succeeded` reply surfaces, in both operations, as a
generic error of kind `Other` whose payload is only the reply code's
display text — no structured reply value is preserved — and a transport
failure can surface with the very same kind `Other` (indeed with an
identical error value), so kind or type alone cannot distinguish a proxy
rejection from a transport error. -/
theorem rejection_error_is_untyped (addr : Address) (st : RawStream)
    (hsp : HandshakeResponse) (hp : TcpResponseHeader) (m : String)
    (hm : hsp.chosen_method = SOCKS5_AUTH_METHOD_NONE)
    (hrep : ¬ hp.reply = Reply.Succeeded) :
    (connectRun addr (oneShotEnv st hsp hp)).2
      = Outcome.err ⟨ErrorKind.Other, replyDisplay hp.reply⟩ ∧
    (udpAssociateRun addr (oneShotEnv st hsp hp)).2
      = Outcome.err ⟨ErrorKind.Other, replyDisplay hp.reply⟩ ∧
    (connectRun addr ⟨Except.ok st, Except.error ⟨ErrorKind.Other, m⟩, Except.ok (),
        Except.ok hsp, Except.ok (), Except.ok (), Except.ok hp⟩).2
      = Outcome.err ⟨ErrorKind.Other, m⟩ := by
  refine ⟨?_, ?_, ?_⟩ <;> simp [connectRun, udpAssociateRun, oneShotEnv, hm, hrep]

/-- C10 witness: reply `HostUnreachable` and a transport write error with
the same payload produce literally identical error values. -/
theorem rejection_error_is_untyped_witness :
    (⟨0⟩ : HandshakeResponse).chosen_method = SOCKS5_AUTH_METHOD_NONE ∧
    ¬ Reply.HostUnreachable = Reply.Succeeded ∧
    (connectRun addr0 (oneShotEnv nullStream ⟨0⟩ ⟨Reply.HostUnreachable, bound0⟩)).2
      = Outcome.err ⟨ErrorKind.Other, replyDisplay Reply.HostUnreachable⟩ :=
  ⟨rfl, by decide,
   (rejection_error_is_untyped addr0 nullStream ⟨0⟩ ⟨Reply.HostUnreachable, bound0⟩
     (replyDisplay Reply.HostUnreachable) rfl (by decide)).1⟩

end Socks5
